import Mathlib

/-!
Verification of the RAG pipeline repository (`src/chain.py`, `src/sql_agent.py`,
`src/database.py`) against its natural-language specification.

The Python code is shallowly embedded: the pure string functions
(`analyze_sql`, `get_pre_aggregation_query`) become Lean functions on
`List Char` / `String`; the orchestrator (`RAGPipeline`) becomes explicit
state passing, with the external effects (LLM calls, SQL execution) supplied
by an `Env` record of oracle functions, and exceptions modelled by
`Except String`.
-/

namespace RagSpec

/-- ASCII whitespace, as matched by Python's regex `\s` and `str.strip`
on the ASCII range: space, tab, newline, carriage return, vertical tab,
form feed. -/
def wsChar (c : Char) : Bool :=
  c = ' ' || c = '\t' || c = '\n' || c = '\r' || c = '\x0b' || c = '\x0c'

/-- Python `str.upper` on the ASCII range, character-wise. -/
def upperL (l : List Char) : List Char := l.map Char.toUpper

/-- Python `str.lower` on the ASCII range, character-wise. -/
def lowerL (l : List Char) : List Char := l.map Char.toLower

/-- Exact match of `pat` at the head of `text`. -/
def startsWith : List Char → List Char → Bool
  | [], _ => true
  | _ :: _, [] => false
  | p :: ps, t :: ts => p = t && startsWith ps ts

/-- Case-insensitive (ASCII) match of `pat` at the head of `text`. -/
def startsWithCI : List Char → List Char → Bool
  | [], _ => true
  | _ :: _, [] => false
  | p :: ps, t :: ts => p.toUpper = t.toUpper && startsWithCI ps ts

/-- Python's `pat in text` substring test. -/
def hasSubstr (pat : List Char) : List Char → Bool
  | [] => startsWith pat []
  | t :: ts => startsWith pat (t :: ts) || hasSubstr pat ts

/-- Helper for `countSub`: `skip` characters are still to be skipped after
a previous non-overlapping match. -/
def countSubAux (pat : List Char) : List Char → Nat → Nat
  | [], _ => 0
  | _ :: ts, skip + 1 => countSubAux pat ts skip
  | t :: ts, 0 =>
    if startsWith pat (t :: ts) then 1 + countSubAux pat ts (pat.length - 1)
    else countSubAux pat ts 0

/-- Python's `text.count(pat)`: number of non-overlapping occurrences,
scanning left to right. -/
def countSub (pat : List Char) (text : List Char) : Nat :=
  countSubAux pat text 0

/-- Python `str.strip`: whitespace removed from both ends. -/
def stripWs (l : List Char) : List Char :=
  ((l.dropWhile wsChar).reverse.dropWhile wsChar).reverse

/-- Helper for `collapseWs`: the flag records whether we are inside a
whitespace run whose single replacement space was already emitted. -/
def collapseAux : Bool → List Char → List Char
  | _, [] => []
  | inRun, c :: cs =>
    if wsChar c then
      if inRun then collapseAux true cs else ' ' :: collapseAux true cs
    else c :: collapseAux false cs

/-- Python `re.sub(r"\s+", " ", s)`: every maximal run of whitespace is
replaced by a single space. -/
def collapseWs (l : List Char) : List Char := collapseAux false l

/-- The coarse query-type tag assigned by `analyze_sql`. -/
structure SQLAnalysis where
  tables_used : List String
  table_count : Nat
  join_count : Nat
  has_aggregation : Bool
  has_group_by : Bool
  has_filter : Bool
  has_order : Bool
  has_limit : Bool
  query_type : String
deriving DecidableEq

/-- The three table names the repository knows about
(`src/sql_agent.py`, `analyze_sql`). -/
def knownTables : List String := ["clients", "invoices", "invoice_line_items"]

/-- The aggregate-function indicators scanned for by `analyze_sql`. -/
def aggKeywords : List String := ["COUNT(", "SUM(", "AVG(", "MAX(", "MIN("]

/-- Embedding of `analyze_sql` (`src/sql_agent.py`, lines 73-118): pure,
case-insensitive substring scan of the SQL text. -/
def analyze_sql (sql : String) : SQLAnalysis :=
  let sql_upper := upperL sql.data
  let tables := knownTables.filter fun t =>
    hasSubstr (upperL t.data) sql_upper || hasSubstr t.data (lowerL sql.data)
  let join_count := countSub "JOIN".data sql_upper
  let has_aggregation := aggKeywords.any fun a => hasSubstr a.data sql_upper
  let has_group_by := hasSubstr "GROUP BY".data sql_upper
  let has_filter := hasSubstr "WHERE".data sql_upper
  let has_order := hasSubstr "ORDER BY".data sql_upper
  let has_limit := hasSubstr "LIMIT".data sql_upper
  let query_type :=
    if has_aggregation || has_group_by then "AGGREGATION"
    else if join_count > 0 then "JOIN"
    else "SELECT"
  { tables_used := tables
    table_count := tables.length
    join_count := join_count
    has_aggregation := has_aggregation
    has_group_by := has_group_by
    has_filter := has_filter
    has_order := has_order
    has_limit := has_limit
    query_type := query_type }

/-!
Embedding of `get_pre_aggregation_query` (`src/sql_agent.py`, lines 121-158).
The Python function applies
`re.search(r"FROM\s+(.+?)(?:\sGROUP BY|\sORDER BY|\sLIMIT|;|$)", sql,
re.IGNORECASE | re.DOTALL)`. We model that regex directly:
the engine scans left to right for a position where `FROM` matches
case-insensitively; there, `\s+` matches greedily (backtracking at most once,
when nothing would remain for `.+?`), the lazy group `(.+?)` takes the fewest
characters (at least one) after which one of the terminator alternatives
(whitespace followed by `GROUP BY` / `ORDER BY` / `LIMIT`, a semicolon, or
end of input) matches.
-/

/-- The terminator alternation `(?:\sGROUP BY|\sORDER BY|\sLIMIT|;|$)`
tested at the current position. -/
def termAt : List Char → Bool
  | [] => true
  | c :: cs =>
    (wsChar c &&
      (startsWithCI "GROUP BY".data cs || startsWithCI "ORDER BY".data cs ||
        startsWithCI "LIMIT".data cs)) ||
    c = ';'

/-- Lazy capture `(.+?)`: consume at least one character and stop as soon
as the terminator alternation matches at the position that follows. -/
def grabLazy : List Char → List Char
  | [] => []
  | c :: cs => if termAt cs then [c] else c :: grabLazy cs

/-- Attempt the part of the pattern after the literal `FROM` at the text
`t`: greedy `\s+` (with its single relevant backtracking step), then the
lazy capture. Returns the captured group-1 text. -/
def matchFromHere (t : List Char) : Option (List Char) :=
  let jmax := (t.takeWhile wsChar).length
  if jmax = 0 then none
  else
    let j := if jmax < t.length then jmax else t.length - 1
    if j = 0 then none
    else some (grabLazy (t.drop j))

/-- `re.search` scanning: try the whole pattern at each position, left to
right, and return the first successful capture. -/
def searchFrom : List Char → Option (List Char)
  | [] => none
  | c :: cs =>
    if startsWithCI "FROM".data (c :: cs) then
      match matchFromHere ((c :: cs).drop 4) with
      | some g => some g
      | none => searchFrom cs
    else searchFrom cs

/-- Embedding of `get_pre_aggregation_query` (`src/sql_agent.py`,
lines 121-158): gate on `GROUP BY` being present case-insensitively,
extract the FROM clause with the regex, strip it, wrap it in
`SELECT * FROM ... LIMIT 100`, collapse whitespace and strip. -/
def get_pre_aggregation_query (sql : String) : Option String :=
  if !hasSubstr "GROUP BY".data (upperL sql.data) then none
  else
    match searchFrom sql.data with
    | none => none
    | some g =>
      let from_clause := stripWs g
      let pre_agg_sql := "SELECT * FROM ".data ++ from_clause ++ " LIMIT 100".data
      some (String.mk (stripWs (collapseWs pre_agg_sql)))

/-!
Embedding of the effectful pipeline (`src/sql_agent.py` `execute_and_answer`,
`src/chain.py` `RAGPipeline`). External effects — the two LLM calls and SQL
execution against the store — are supplied by an `Env` of oracle functions;
a Python exception is an `Except.error`. Wall-clock time is supplied per
call as a rational `elapsed`.
-/

/-- A pandas DataFrame as returned by `execute_query` (`src/database.py`):
column names in order plus rows. -/
structure Table where
  columns : List String
  rows : List (List String)
deriving DecidableEq

/-- pandas `DataFrame.empty`: true when any axis has length zero. -/
def Table.isEmptyDf (t : Table) : Bool := t.rows.isEmpty || t.columns.isEmpty

/-- The `intermediate_results` dict built in `execute_and_answer`
(`src/sql_agent.py`, lines 227-232). -/
structure Intermediate where
  query : String
  data : List (List String)
  row_count : Nat
  col_count : Nat
deriving DecidableEq

/-- The result dict returned by `execute_and_answer`. Optional fields model
dict keys that are absent in one of the two return branches (`none` both for
an absent key and for a key bound to Python `None`). -/
structure QueryResult where
  question : String
  sql_query : String
  results : Option (List (List String))
  row_count : Option Nat
  col_count : Option Nat
  error : Option String
  answer : String
  analysis : SQLAnalysis
  intermediate : Option Intermediate
  response_time : Option ℚ
deriving DecidableEq

/-- The oracle functions standing for the external collaborators: SQL
generation (LLM), query execution (store), result rendering
(`DataFrame.to_string`), and answer synthesis (LLM). `Except.error`
models a raised exception. -/
structure Env where
  gen : String → Except String String
  exec : String → Except String Table
  renderTable : Table → String
  synth : String → String → String → Except String String

/-- Embedding of `execute_and_answer` (`src/sql_agent.py`, lines 196-275):
generate SQL, analyze it, for aggregation queries best-effort fetch the
pre-aggregation rows (execution failure swallowed), execute the main query
(failure converted into an error result), then synthesize the answer. -/
def execute_and_answer (env : Env) (question : String) :
    Except String QueryResult :=
  match env.gen question with
  | .error e => .error e
  | .ok sql_query =>
    let sql_analysis := analyze_sql sql_query
    let intermediate_results : Option Intermediate :=
      if sql_analysis.query_type = "AGGREGATION" then
        match get_pre_aggregation_query sql_query with
        | some iq =>
          match env.exec iq with
          | .ok df =>
            some { query := iq, data := df.rows, row_count := df.rows.length,
                   col_count := df.columns.length }
          | .error _ => none
        | none => none
      else none
    match env.exec sql_query with
    | .error e =>
      .ok { question := question, sql_query := sql_query, results := none,
            row_count := none, col_count := none, error := some e,
            answer := "Error executing query: " ++ e, analysis := sql_analysis,
            intermediate := none, response_time := none }
    | .ok results_df =>
      let row_count := results_df.rows.length
      let col_count :=
        if !results_df.isEmptyDf then results_df.columns.length else 0
      let results_str :=
        if !results_df.isEmptyDf then env.renderTable results_df
        else "No results"
      match env.synth question sql_query results_str with
      | .error e => .error e
      | .ok answer =>
        .ok { question := question, sql_query := sql_query,
              results := some results_df.rows, row_count := some row_count,
              col_count := some col_count, error := none, answer := answer,
              analysis := sql_analysis, intermediate := intermediate_results,
              response_time := none }

/-- A query-history entry (`src/chain.py`, lines 82-91). -/
structure QueryRecord where
  question : String
  response_time : ℚ
  success : Bool
  row_count : Nat
  col_count : Nat
  analysis : SQLAnalysis
  intermediate : Option Intermediate
  sql_query : String
deriving DecidableEq

/-- The mutable `self.stats` dict of `RAGPipeline`. -/
structure Stats where
  total_queries : Nat
  successful_queries : Nat
  failed_queries : Nat
  total_response_time : ℚ
  query_history : List QueryRecord
deriving DecidableEq

/-- The `RAGPipeline` object state plus the bit of world state `initialize`
reads and writes (`os.path.exists(DB_PATH)`), with a ghost counter of
`init_database()` provisioning calls as the spec suggests for testing
idempotence. -/
structure RAGPipeline where
  initialised : Bool
  dbExists : Bool
  provisionCount : Nat
  last_query_info : Option QueryRecord
  stats : Stats
deriving DecidableEq

/-- The pipeline state after `__init__` (`src/chain.py`, lines 18-27). -/
def RAGPipeline.start (dbExists : Bool) : RAGPipeline :=
  { initialised := false, dbExists := dbExists, provisionCount := 0,
    last_query_info := none,
    stats := { total_queries := 0, successful_queries := 0, failed_queries := 0,
               total_response_time := 0, query_history := [] } }

/-- Embedding of `RAGPipeline.initialize` (`src/chain.py`, lines 29-44):
return immediately when already initialised, otherwise provision the
database when the file is absent and mark the pipeline ready. -/
def RAGPipeline.initialise (p : RAGPipeline) : RAGPipeline :=
  if p.initialised then p
  else
    { p with
      initialised := true
      dbExists := true
      provisionCount :=
        if p.dbExists then p.provisionCount else p.provisionCount + 1 }

/-- Embedding of `RAGPipeline.query` (`src/chain.py`, lines 46-98): lazily
initialise, count the query as started, run `execute_and_answer`; on an
exception increment the failure counter and re-raise; on a normal return
increment the success counter, accumulate the elapsed time, build the
query record, append it to history and update the last-query pointer. -/
def RAGPipeline.query (env : Env) (elapsed : ℚ) (question : String)
    (p : RAGPipeline) : RAGPipeline × Except String QueryResult :=
  let p := if !p.initialised then p.initialise else p
  let p := { p with stats := { p.stats with
    total_queries := p.stats.total_queries + 1 } }
  match execute_and_answer env question with
  | .error e =>
    ({ p with stats := { p.stats with
        failed_queries := p.stats.failed_queries + 1 } },
     .error e)
  | .ok result0 =>
    let p := { p with stats := { p.stats with
      successful_queries := p.stats.successful_queries + 1,
      total_response_time := p.stats.total_response_time + elapsed } }
    let result := { result0 with response_time := some elapsed }
    let query_record : QueryRecord :=
      { question := question, response_time := elapsed,
        success := result.error.isNone,
        row_count := result.row_count.getD 0,
        col_count := result.col_count.getD 0,
        analysis := result.analysis,
        intermediate := result.intermediate,
        sql_query := result.sql_query }
    ({ p with
        stats := { p.stats with
          query_history := p.stats.query_history ++ [query_record] },
        last_query_info := some query_record },
     .ok result)

/-- The snapshot returned by `get_stats` (`src/chain.py`, lines 100-118). -/
structure StatsView where
  total_queries : Nat
  successful_queries : Nat
  failed_queries : Nat
  total_response_time : ℚ
  query_history : List QueryRecord
  avg_response_time : ℚ
  last_query : Option QueryRecord
deriving DecidableEq

/-- Embedding of `RAGPipeline.get_stats` (`src/chain.py`, lines 100-118). -/
def RAGPipeline.get_stats (p : RAGPipeline) : StatsView :=
  { total_queries := p.stats.total_queries
    successful_queries := p.stats.successful_queries
    failed_queries := p.stats.failed_queries
    total_response_time := p.stats.total_response_time
    query_history := p.stats.query_history
    avg_response_time :=
      if p.stats.total_queries > 0 then
        p.stats.total_response_time / (p.stats.total_queries : ℚ)
      else 0
    last_query := p.last_query_info }

/-- One call to `ask` (`src/chain.py`, line 124): its environment of
external effects, the wall-clock time it takes, and the question. -/
structure Call where
  env : Env
  elapsed : ℚ
  question : String

/-- A completed call raises exactly when `execute_and_answer` raises. -/
def Call.raises (c : Call) : Bool :=
  match execute_and_answer c.env c.question with
  | .error _ => true
  | .ok _ => false

/-- Run a sequence of calls to `ask` through the pipeline, keeping only the
evolving state. -/
def runCalls (p : RAGPipeline) : List Call → RAGPipeline
  | [] => p
  | c :: cs => runCalls (RAGPipeline.query c.env c.elapsed c.question p).1 cs

/-!
Spec-side predicate for the query-type claims, written from the
specification's words: an aggregation indicator is an aggregate function
name or the `GROUP BY` keyword present as a case-insensitive substring.
-/

/-- Modelled from the spec: some aggregate function name (`COUNT(`, `SUM(`,
`AVG(`, `MAX(`, `MIN(`) or the keyword `GROUP BY` occurs in the SQL text as
a case-insensitive substring. -/
def aggIndicator (sql : String) : Prop :=
  (∃ k ∈ aggKeywords, hasSubstr k.data (upperL sql.data) = true) ∨
    hasSubstr "GROUP BY".data (upperL sql.data) = true

/-!
Concrete fixtures used by counterexamples and witnesses: a fresh pipeline
and a few fully-determined environments.
-/

/-- A fresh pipeline whose backing database file already exists. -/
def pipe0 : RAGPipeline := RAGPipeline.start true

/-- An environment in which SQL generation succeeds but every execution
against the store raises. -/
def envExecFails : Env :=
  { gen := fun _ => .ok "SELECT * FROM clients"
    exec := fun _ => .error "no such table: t"
    renderTable := fun _ => ""
    synth := fun _ _ _ => .ok "answer" }

/-- An environment in which the SQL-generation LLM call raises. -/
def envGenRaises : Env :=
  { gen := fun _ => .error "LLM unavailable"
    exec := fun _ => .ok { columns := [], rows := [] }
    renderTable := fun _ => ""
    synth := fun _ _ _ => .ok "answer" }

/-- An environment producing an aggregation query whose pre-aggregation
drill-down is derivable and executes successfully. -/
def envAgg : Env :=
  { gen := fun _ => .ok "SELECT COUNT(a) FROM t GROUP BY a"
    exec := fun _ => .ok { columns := ["a"], rows := [["1"]] }
    renderTable := fun _ => "a 1"
    synth := fun _ _ _ => .ok "one row" }

/-- An environment whose query executes successfully but returns zero rows
over two columns. -/
def envZeroRows : Env :=
  { gen := fun _ => .ok "SELECT name, city FROM clients"
    exec := fun _ => .ok { columns := ["name", "city"], rows := [] }
    renderTable := fun _ => ""
    synth := fun _ _ _ => .ok "no data" }

/-- The result `ask` produces in `envAgg` on a fresh pipeline. -/
def resAgg : QueryResult :=
  { question := "q"
    sql_query := "SELECT COUNT(a) FROM t GROUP BY a"
    results := some [["1"]]
    row_count := some 1
    col_count := some 1
    error := none
    answer := "one row"
    analysis := analyze_sql "SELECT COUNT(a) FROM t GROUP BY a"
    intermediate := some { query := "SELECT * FROM t LIMIT 100",
                           data := [["1"]], row_count := 1, col_count := 1 }
    response_time := some 0 }

/-- The query record `ask` appends in `envAgg` on a fresh pipeline. -/
def recAgg : QueryRecord :=
  { question := "q"
    response_time := 0
    success := true
    row_count := 1
    col_count := 1
    analysis := analyze_sql "SELECT COUNT(a) FROM t GROUP BY a"
    intermediate := some { query := "SELECT * FROM t LIMIT 100",
                           data := [["1"]], row_count := 1, col_count := 1 }
    sql_query := "SELECT COUNT(a) FROM t GROUP BY a" }

/-- The pipeline state after one `envAgg` call on a fresh pipeline. -/
def pipeAgg : RAGPipeline := (RAGPipeline.query envAgg 0 "q" pipe0).1

/-- A pipeline that has already accumulated three queries and six seconds of
response time, for exercising the average computation. -/
def pipe3 : RAGPipeline :=
  { pipe0 with stats :=
    { total_queries := 3
      successful_queries := 2
      failed_queries := 1
      total_response_time := 6
      query_history := [] } }

/-!
Evaluation checks of the embedding on concrete inputs. Each
`get_pre_aggregation_query` value below was cross-checked against the
behaviour of the Python regex on the same input.
-/

example : (analyze_sql "SELECT * FROM clients").query_type = "SELECT" := by
  decide

example : (analyze_sql "SELECT * FROM clients").tables_used = ["clients"] := by
  decide

example : get_pre_aggregation_query "SELECT a FROM t GROUP BY a" =
    some "SELECT * FROM t LIMIT 100" := by decide

example : get_pre_aggregation_query "SELECT 1 GROUP BY x" = none := by decide

example : get_pre_aggregation_query "GROUP BY FROM   " =
    some "SELECT * FROM LIMIT 100" := by decide

example : get_pre_aggregation_query "GROUP BY FROM " = none := by decide

example : get_pre_aggregation_query "A FROM x; GROUP BY" =
    some "SELECT * FROM x LIMIT 100" := by decide

example : get_pre_aggregation_query "SELECT c FROM t\nGROUP BY c" =
    some "SELECT * FROM t LIMIT 100" := by decide

example : get_pre_aggregation_query
      "SELECT COUNT(*) FROM (SELECT a FROM t GROUP BY a)" =
    some "SELECT * FROM (SELECT a FROM t LIMIT 100" := by decide

example : get_pre_aggregation_query "group by from t where x=1" =
    some "SELECT * FROM t where x=1 LIMIT 100" := by decide

example : get_pre_aggregation_query "GROUP BY FROMt u" = none := by decide

example : get_pre_aggregation_query
      "SELECT c.name, COUNT(*) FROM clients c JOIN invoices i ON c.client_id=i.client_id GROUP BY c.name" =
    some "SELECT * FROM clients c JOIN invoices i ON c.client_id=i.client_id LIMIT 100" := by
  decide

/-!
Helper lemmas shared by the claim proofs.
-/

theorem initialise_stats (p : RAGPipeline) : p.initialise.stats = p.stats := by
  unfold RAGPipeline.initialise
  split <;> rfl

theorem initialise_last (p : RAGPipeline) :
    p.initialise.last_query_info = p.last_query_info := by
  unfold RAGPipeline.initialise
  split <;> rfl

theorem query_ok_record (env : Env) (el : ℚ) (question : String)
    (p : RAGPipeline) (r : QueryResult)
    (h : execute_and_answer env question = .ok r) :
    (RAGPipeline.query env el question p).2
        = .ok { r with response_time := some el } ∧
    (RAGPipeline.query env el question p).1.last_query_info
        = some { question := question, response_time := el,
                 success := r.error.isNone, row_count := r.row_count.getD 0,
                 col_count := r.col_count.getD 0, analysis := r.analysis,
                 intermediate := r.intermediate,
                 sql_query := r.sql_query } ∧
    (RAGPipeline.query env el question p).1.stats.query_history
        = p.stats.query_history
          ++ [{ question := question, response_time := el,
                success := r.error.isNone, row_count := r.row_count.getD 0,
                col_count := r.col_count.getD 0, analysis := r.analysis,
                intermediate := r.intermediate,
                sql_query := r.sql_query }] := by
  simp only [RAGPipeline.query, h]
  split <;> simp [initialise_stats, initialise_last]

theorem eaa_intermediate (env : Env) (question : String) (r : QueryResult)
    (h : execute_and_answer env question = .ok r)
    (hi : r.intermediate.isSome = true) :
    r.analysis = analyze_sql r.sql_query ∧
    r.analysis.query_type = "AGGREGATION" ∧
    (get_pre_aggregation_query r.sql_query).isSome = true := by
  cases hg : env.gen question with
  | error e => simp [execute_and_answer, hg] at h
  | ok sql =>
    cases hx : env.exec sql with
    | error e =>
      simp [execute_and_answer, hg, hx] at h
      rw [← h] at hi
      simp at hi
    | ok df =>
      cases hs : env.synth question sql
          (if df.isEmptyDf = false then env.renderTable df
           else "No results") with
      | error e => simp [execute_and_answer, hg, hx, hs] at h
      | ok ans =>
        simp [execute_and_answer, hg, hx, hs] at h
        rw [← h] at hi ⊢
        by_cases hqt : (analyze_sql sql).query_type = "AGGREGATION"
        · refine ⟨rfl, hqt, ?_⟩
          cases hpre : get_pre_aggregation_query sql with
          | none => simp [hqt, hpre] at hi
          | some iq => simp [hpre]
        · simp [hqt] at hi

theorem dropWhile_head_not (l : List Char) (a : Char)
    (h : (l.dropWhile wsChar).head? = some a) : wsChar a = false := by
  induction l with
  | nil => simp at h
  | cons c cs ih =>
    by_cases hc : wsChar c
    · rw [List.dropWhile_cons, if_pos hc] at h
      exact ih h
    · rw [List.dropWhile_cons, if_neg hc] at h
      simp at h
      subst h
      simpa using hc

theorem dropWhile_getLast? (l : List Char) :
    l.dropWhile wsChar = [] ∨
      (l.dropWhile wsChar).getLast? = l.getLast? := by
  induction l with
  | nil => left; rfl
  | cons c cs ih =>
    by_cases hc : wsChar c
    · rw [List.dropWhile_cons, if_pos hc]
      cases cs with
      | nil => left; rfl
      | cons c2 cs2 =>
        rcases ih with h1 | h2
        · left; exact h1
        · right; rw [h2, List.getLast?_cons_cons]
    · right; rw [List.dropWhile_cons, if_neg hc]

theorem stripWs_head_not (g : List Char) (a : Char)
    (h : (stripWs g).head? = some a) : wsChar a = false := by
  unfold stripWs at h
  rw [List.head?_reverse] at h
  rcases dropWhile_getLast? (g.dropWhile wsChar).reverse with h1 | h2
  · rw [h1] at h; simp at h
  · rw [h2, List.getLast?_reverse] at h
    exact dropWhile_head_not g a h

theorem stripWs_getLast_not (g : List Char) (b : Char)
    (h : (stripWs g).getLast? = some b) : wsChar b = false := by
  unfold stripWs at h
  rw [List.getLast?_reverse] at h
  exact dropWhile_head_not (g.dropWhile wsChar).reverse b h

theorem collapseAux_cons_not (b : Bool) (c : Char) (cs : List Char)
    (hc : wsChar c = false) :
    collapseAux b (c :: cs) = c :: collapseAux false cs := by
  simp [collapseAux, hc]

theorem collapseAux_append (l1 : List Char) (c : Char) (l2 : List Char)
    (hc : wsChar c = false) : ∀ b : Bool,
    collapseAux b (l1 ++ c :: l2)
      = collapseAux b (l1 ++ [c]) ++ collapseAux false l2 := by
  induction l1 with
  | nil => intro b; simp [collapseAux, hc]
  | cons a l1 ih =>
    intro b
    by_cases ha : wsChar a
    · by_cases hb : b <;> simp [collapseAux, ha, hb, ih]
    · simp [collapseAux, ha, ih]

theorem stripWs_noop (a : Char) (m : List Char) (b : Char)
    (ha : wsChar a = false) (hb : wsChar b = false) :
    stripWs (a :: (m ++ [b])) = a :: (m ++ [b]) := by
  unfold stripWs
  rw [List.dropWhile_cons, if_neg (by simp [ha])]
  rw [List.reverse_cons, List.reverse_append]
  simp only [List.reverse_cons, List.reverse_nil, List.nil_append,
    List.cons_append, List.append_assoc]
  rw [List.dropWhile_cons, if_neg (by simp [hb])]
  simp

theorem norm_wrap (mid : List Char) (a : Char) (t : List Char)
    (hmid : mid = a :: t) (ha : wsChar a = false)
    (s : List Char) (b : Char) (hsb : mid = s ++ [b])
    (hb : wsChar b = false) :
    stripWs (collapseWs
        ("SELECT * FROM ".data ++ mid ++ " LIMIT 100".data))
      = "SELECT * FROM ".data ++ collapseWs mid ++ " LIMIT 100".data := by
  have h1 : "SELECT * FROM ".data ++ mid ++ " LIMIT 100".data
      = "SELECT * FRO".data
        ++ 'M' :: (' ' :: (mid ++ " LIMIT 100".data)) := by
    simp
  have h3 : collapseAux false (' ' :: (mid ++ " LIMIT 100".data))
      = ' ' :: collapseAux true (mid ++ " LIMIT 100".data) := by
    simp [collapseAux, wsChar]
  have h4 : collapseAux true (mid ++ " LIMIT 100".data)
      = collapseAux false (mid ++ " LIMIT 100".data) := by
    rw [hmid, List.cons_append, collapseAux_cons_not true a _ ha,
      collapseAux_cons_not false a _ ha]
  have h5 : collapseAux false (mid ++ " LIMIT 100".data)
      = collapseAux false mid ++ " LIMIT 100".data := by
    conv_lhs => rw [hsb, List.append_assoc, List.singleton_append]
    rw [collapseAux_append s b " LIMIT 100".data hb false, ← hsb]
    rfl
  rw [collapseWs, h1, collapseAux_append "SELECT * FRO".data 'M' _
    (by decide) false, h3, h4, h5]
  have h6 : collapseAux false ("SELECT * FRO".data ++ ['M'])
      = "SELECT * FROM".data := by decide
  rw [h6]
  have h7 : ("SELECT * FROM".data : List Char)
        ++ ' ' :: (collapseAux false mid ++ " LIMIT 100".data)
      = 'S' :: (("ELECT * FROM ".data ++ collapseAux false mid
          ++ " LIMIT 10".data) ++ ['0']) := by
    simp
  rw [h7, stripWs_noop 'S' _ '0' (by decide) (by decide)]
  simp [collapseWs]

theorem query_delta (env : Env) (el : ℚ) (q : String) (p : RAGPipeline) :
    ((RAGPipeline.query env el q p).1.stats.total_queries
        = p.stats.total_queries + 1) ∧
    (∀ e, execute_and_answer env q = .error e →
      (RAGPipeline.query env el q p).1.stats.failed_queries
          = p.stats.failed_queries + 1 ∧
      (RAGPipeline.query env el q p).1.stats.successful_queries
          = p.stats.successful_queries ∧
      (RAGPipeline.query env el q p).1.stats.query_history
          = p.stats.query_history) ∧
    (∀ r, execute_and_answer env q = .ok r →
      (RAGPipeline.query env el q p).1.stats.successful_queries
          = p.stats.successful_queries + 1 ∧
      (RAGPipeline.query env el q p).1.stats.failed_queries
          = p.stats.failed_queries ∧
      (RAGPipeline.query env el q p).1.stats.query_history.length
          = p.stats.query_history.length + 1) := by
  unfold RAGPipeline.query
  cases h : execute_and_answer env q <;>
    simp [h, initialise_stats] <;> split <;> simp [initialise_stats]

theorem runCalls_stats (calls : List Call) : ∀ p : RAGPipeline,
    (runCalls p calls).stats.total_queries
        = p.stats.total_queries + calls.length ∧
    (runCalls p calls).stats.failed_queries
        = p.stats.failed_queries + (calls.filter Call.raises).length ∧
    (runCalls p calls).stats.successful_queries
        = p.stats.successful_queries
          + (calls.filter fun c => !c.raises).length ∧
    (runCalls p calls).stats.query_history.length
        = p.stats.query_history.length
          + (calls.filter fun c => !c.raises).length := by
  induction calls with
  | nil => intro p; simp [runCalls]
  | cons c cs ih =>
    intro p
    have hd := query_delta c.env c.elapsed c.question p
    have hi := ih (RAGPipeline.query c.env c.elapsed c.question p).1
    simp only [runCalls]
    cases h : execute_and_answer c.env c.question with
    | error e =>
      have hr : c.raises = true := by simp [Call.raises, h]
      obtain ⟨h1, h2, -⟩ := hd
      obtain ⟨h2a, h2b, h2c⟩ := h2 e h
      simp [List.filter_cons, hr, hi.1, hi.2.1, hi.2.2.1, hi.2.2.2,
        h1, h2a, h2b, h2c]
      omega
    | ok r =>
      have hr : c.raises = false := by simp [Call.raises, h]
      obtain ⟨h1, -, h3⟩ := hd
      obtain ⟨h3a, h3b, h3c⟩ := h3 r h
      simp [List.filter_cons, hr, hi.1, hi.2.1, hi.2.2.1, hi.2.2.2,
        h1, h3a, h3b, h3c]
      omega

/-- C1 as stated is false: for a call whose generated SQL fails at
execution time, `execute_and_answer` returns normally with an `error` key,
so the claim counts it as failed (S = 0, F = 1); the code nevertheless
increments `successful_queries` (based on no exception being raised, not on
the `error` key) and leaves `failed_queries` at zero. -/
theorem C1_counterexample :
    ((RAGPipeline.query envExecFails 0 "list clients" pipe0).2.toOption.map
        fun r => r.error.isSome) = some true ∧
    (RAGPipeline.query envExecFails 0 "list clients"
        pipe0).1.stats.successful_queries = 1 ∧
    (RAGPipeline.query envExecFails 0 "list clients"
        pipe0).1.stats.failed_queries = 0 := by
  decide

/-- C1 (amended): after N completed calls to `ask` on a fresh pipeline,
`get_stats` reports `total_queries = N`, `failed_queries` = the number of
calls that raised, `successful_queries` = the number of calls that returned
a result — with or without an `error` key — and
`len(query_history)` = that same number of non-raising calls; the per-record
`success` flag, not the counters, reflects `error`-key presence. -/
theorem C1_amended_counters (d : Bool) (calls : List Call) :
    (runCalls (RAGPipeline.start d) calls).get_stats.total_queries
        = calls.length ∧
    (runCalls (RAGPipeline.start d) calls).get_stats.failed_queries
        = (calls.filter Call.raises).length ∧
    (runCalls (RAGPipeline.start d) calls).get_stats.successful_queries
        = (calls.filter fun c => !c.raises).length ∧
    (runCalls (RAGPipeline.start d) calls).get_stats.query_history.length
        = (calls.filter fun c => !c.raises).length := by
  have h := runCalls_stats calls (RAGPipeline.start d)
  simpa [RAGPipeline.get_stats, RAGPipeline.start] using h

/-- C2 as stated is false: a call that raises (here the generation LLM call
fails) increments `total_queries` and `failed_queries` but appends nothing
to `query_history`, so afterwards `total_queries = 1` while
`len(query_history) = 0`. -/
theorem C2_counterexample :
    (RAGPipeline.query envGenRaises 0 "q" pipe0).1.stats.total_queries = 1 ∧
    (RAGPipeline.query envGenRaises 0 "q" pipe0).1.stats.failed_queries = 1 ∧
    (RAGPipeline.query envGenRaises 0 "q"
        pipe0).1.stats.query_history.length = 0 := by
  decide

/-- C2 (amended): after every completed call to `query` — returning or
raising — `total_queries = successful_queries + failed_queries` holds, and
`len(query_history) = successful_queries`; history length equals
`total_queries` only as long as no call has raised. -/
theorem C2_amended_invariant (env : Env) (el : ℚ) (question : String)
    (p : RAGPipeline)
    (h1 : p.stats.total_queries
        = p.stats.successful_queries + p.stats.failed_queries)
    (h2 : p.stats.query_history.length = p.stats.successful_queries) :
    (RAGPipeline.query env el question p).1.stats.total_queries
        = (RAGPipeline.query env el question p).1.stats.successful_queries
          + (RAGPipeline.query env el question p).1.stats.failed_queries ∧
    (RAGPipeline.query env el question p).1.stats.query_history.length
        = (RAGPipeline.query env el question p).1.stats.successful_queries := by
  have hd := query_delta env el question p
  cases h : execute_and_answer env question with
  | error e =>
    obtain ⟨ht, h2', -⟩ := hd
    obtain ⟨ha, hb, hc⟩ := h2' e h
    constructor
    · omega
    · rw [hc, hb, h2]
  | ok r =>
    obtain ⟨ht, -, h3⟩ := hd
    obtain ⟨ha, hb, hc⟩ := h3 r h
    constructor
    · omega
    · omega

/-- Witness for C2 (amended) at a concrete raising call from a fresh
pipeline, whose statistics trivially satisfy the invariant. -/
theorem C2_amended_invariant_witness :
    (RAGPipeline.query envGenRaises 1 "q" pipe0).1.stats.total_queries
        = (RAGPipeline.query envGenRaises 1 "q"
            pipe0).1.stats.successful_queries
          + (RAGPipeline.query envGenRaises 1 "q"
              pipe0).1.stats.failed_queries ∧
    (RAGPipeline.query envGenRaises 1 "q"
        pipe0).1.stats.query_history.length
        = (RAGPipeline.query envGenRaises 1 "q"
            pipe0).1.stats.successful_queries :=
  C2_amended_invariant envGenRaises 1 "q" pipe0 rfl rfl

/-- C5: when execution of the generated SQL raises, `ask` returns a result
carrying the `question`, `sql_query`, `error`, `answer` and `analysis` keys,
with no `results`, `row_count` or `col_count` key, and the query record
appended to history has `success = false`. -/
theorem C5_execution_error_result (env : Env) (el : ℚ) (question : String)
    (p : RAGPipeline) (sql e : String)
    (hg : env.gen question = .ok sql)
    (he : env.exec sql = .error e) :
    ∃ r rec,
      (RAGPipeline.query env el question p).2 = .ok r ∧
      r.question = question ∧ r.sql_query = sql ∧ r.error = some e ∧
      r.answer = "Error executing query: " ++ e ∧
      r.analysis = analyze_sql sql ∧
      r.results = none ∧ r.row_count = none ∧ r.col_count = none ∧
      r.intermediate = none ∧
      (RAGPipeline.query env el question p).1.last_query_info = some rec ∧
      (RAGPipeline.query env el question p).1.stats.query_history
        = p.stats.query_history ++ [rec] ∧
      rec.success = false := by
  have hea : execute_and_answer env question = .ok
      { question := question, sql_query := sql, results := none,
        row_count := none, col_count := none, error := some e,
        answer := "Error executing query: " ++ e,
        analysis := analyze_sql sql, intermediate := none,
        response_time := none } := by
    simp [execute_and_answer, hg, he]
  obtain ⟨h1, h2, h3⟩ := query_ok_record env el question p _ hea
  exact ⟨_, _, h1, rfl, rfl, rfl, rfl, rfl, rfl, rfl, rfl, rfl, h2, h3, rfl⟩

/-- Witness for C5: the concrete environment `envExecFails`, on a fresh
pipeline, exhibits the error-shaped result and a `success = false` record. -/
theorem C5_execution_error_result_witness :
    ∃ r rec,
      (RAGPipeline.query envExecFails 0 "q" pipe0).2 = .ok r ∧
      r.question = "q" ∧ r.sql_query = "SELECT * FROM clients" ∧
      r.error = some "no such table: t" ∧
      r.answer = "Error executing query: " ++ "no such table: t" ∧
      r.analysis = analyze_sql "SELECT * FROM clients" ∧
      r.results = none ∧ r.row_count = none ∧ r.col_count = none ∧
      r.intermediate = none ∧
      (RAGPipeline.query envExecFails 0 "q" pipe0).1.last_query_info
        = some rec ∧
      (RAGPipeline.query envExecFails 0 "q" pipe0).1.stats.query_history
        = pipe0.stats.query_history ++ [rec] ∧
      rec.success = false :=
  C5_execution_error_result envExecFails 0 "q" pipe0
    "SELECT * FROM clients" "no such table: t" rfl rfl

/-- C6: a query record's `intermediate` is present only when its analysis
classified the SQL as `AGGREGATION` and a pre-aggregation query was
derivable from the SQL text. -/
theorem C6_intermediate_only_for_aggregation (env : Env) (el : ℚ)
    (question : String) (p p' : RAGPipeline) (res : QueryResult)
    (rec : QueryRecord)
    (hq : RAGPipeline.query env el question p = (p', .ok res))
    (hl : p'.last_query_info = some rec)
    (hi : rec.intermediate.isSome = true) :
    rec.analysis = analyze_sql rec.sql_query ∧
    rec.analysis.query_type = "AGGREGATION" ∧
    (get_pre_aggregation_query rec.sql_query).isSome = true := by
  cases h : execute_and_answer env question with
  | error e =>
    have h2 : (RAGPipeline.query env el question p).2 = .error e := by
      simp only [RAGPipeline.query, h]
    rw [hq] at h2
    simp at h2
  | ok r =>
    obtain ⟨-, h2, -⟩ := query_ok_record env el question p r h
    rw [hq] at h2
    have hrec := h2.symm.trans hl
    injection hrec with hrec
    subst hrec
    exact eaa_intermediate env question r h hi

/-- Witness for C6: in `envAgg` the appended record carries an
`intermediate`, its analysis is `AGGREGATION`, and the pre-aggregation
query is derivable. -/
theorem C6_intermediate_only_for_aggregation_witness :
    recAgg.analysis = analyze_sql recAgg.sql_query ∧
    recAgg.analysis.query_type = "AGGREGATION" ∧
    (get_pre_aggregation_query recAgg.sql_query).isSome = true :=
  C6_intermediate_only_for_aggregation envAgg 0 "q" pipe0 pipeAgg resAgg
    recAgg rfl rfl rfl

/-- C9: a successful `ask` whose executed query returns zero rows reports
`col_count = 0` regardless of the number of result columns (pandas marks
the frame empty, and the code then zeroes `col_count`), while with at least
one row `col_count` is the number of result columns. -/
theorem C9_zero_rows_col_count (env : Env) (el : ℚ) (question : String)
    (p : RAGPipeline) (sql : String) (df : Table) (ans : String)
    (hg : env.gen question = .ok sql)
    (hx : env.exec sql = .ok df)
    (hs : env.synth question sql
        (if df.isEmptyDf = false then env.renderTable df
         else "No results") = .ok ans) :
    ∃ r rec,
      (RAGPipeline.query env el question p).2 = .ok r ∧
      (RAGPipeline.query env el question p).1.last_query_info = some rec ∧
      (df.rows = [] → r.col_count = some 0 ∧ rec.col_count = 0) ∧
      (df.rows ≠ [] → r.col_count = some df.columns.length ∧
        rec.col_count = df.columns.length) := by
  cases h : execute_and_answer env question with
  | error e => simp [execute_and_answer, hg, hx, hs] at h
  | ok r =>
    have hcol : r.col_count
        = some (if df.isEmptyDf = false then df.columns.length else 0) := by
      simp [execute_and_answer, hg, hx, hs] at h
      rw [← h]
    obtain ⟨h1, h2, -⟩ := query_ok_record env el question p r h
    refine ⟨_, _, h1, h2, ?_, ?_⟩
    · intro hrows
      have hemp : df.isEmptyDf = true := by
        simp [Table.isEmptyDf, hrows]
      constructor
      · show r.col_count = some 0
        simp [hcol, hemp]
      · show r.col_count.getD 0 = 0
        simp [hcol, hemp]
    · intro hrows
      cases hc : df.columns with
      | nil =>
        have hemp : df.isEmptyDf = true := by
          simp [Table.isEmptyDf, hc]
        constructor <;> simp [hcol, hemp, hc]
      | cons c cs =>
        have hemp : df.isEmptyDf = false := by
          simp [Table.isEmptyDf, hc, hrows]
        constructor <;> simp [hcol, hemp, hc]

/-- Witness for C9: in `envZeroRows` the result set has two columns but no
rows, and the returned `col_count` is zero. -/
theorem C9_zero_rows_col_count_witness :
    ∃ r rec,
      (RAGPipeline.query envZeroRows 0 "q" pipe0).2 = .ok r ∧
      (RAGPipeline.query envZeroRows 0 "q" pipe0).1.last_query_info
        = some rec ∧
      ((Table.mk ["name", "city"] []).rows = [] →
        r.col_count = some 0 ∧ rec.col_count = 0) ∧
      ((Table.mk ["name", "city"] []).rows ≠ [] →
        r.col_count = some (Table.mk ["name", "city"] []).columns.length ∧
        rec.col_count = (Table.mk ["name", "city"] []).columns.length) :=
  C9_zero_rows_col_count envZeroRows 0 "q" pipe0
    "SELECT name, city FROM clients" (Table.mk ["name", "city"] [])
    "no data" rfl rfl rfl

/-- C7: `initialize()` is idempotent: a second call leaves all state
unchanged, the pipeline is ready after the first call, and two successive
calls provision the store at most once (the ghost provisioning counter grows
by at most one). -/
theorem C7_initialise_idempotent (p : RAGPipeline) :
    p.initialise.initialise = p.initialise ∧
    p.initialise.initialised = true ∧
    p.initialise.initialise.provisionCount ≤ p.provisionCount + 1 := by
  unfold RAGPipeline.initialise
  by_cases h : p.initialised <;> by_cases hd : p.dbExists <;> simp [h, hd]

/-- C8: `analyze_sql "SELECT * FROM clients"` yields
`tables_used = [clients]`, `join_count = 0`, `query_type = SELECT`, and the
join-plus-aggregation example yields `join_count = 1`,
`has_aggregation = true`, `has_group_by = true`,
`query_type = AGGREGATION`. -/
theorem C8_analyze_examples :
    (analyze_sql "SELECT * FROM clients").tables_used = ["clients"] ∧
    (analyze_sql "SELECT * FROM clients").join_count = 0 ∧
    (analyze_sql "SELECT * FROM clients").query_type = "SELECT" ∧
    (analyze_sql
      "SELECT c.name, COUNT(*) FROM clients c JOIN invoices i ON c.client_id=i.client_id GROUP BY c.name").join_count
        = 1 ∧
    (analyze_sql
      "SELECT c.name, COUNT(*) FROM clients c JOIN invoices i ON c.client_id=i.client_id GROUP BY c.name").has_aggregation
        = true ∧
    (analyze_sql
      "SELECT c.name, COUNT(*) FROM clients c JOIN invoices i ON c.client_id=i.client_id GROUP BY c.name").has_group_by
        = true ∧
    (analyze_sql
      "SELECT c.name, COUNT(*) FROM clients c JOIN invoices i ON c.client_id=i.client_id GROUP BY c.name").query_type
        = "AGGREGATION" := by
  decide

/-- C3 as stated is false, on two counts. A SQL string containing
`GROUP BY` but no `FROM` clause yields no derived query at all. And the
derived query is not always free of `GROUP BY` or aggregation functions:
when the extraction's terminator does not fire early (here `GROUP\t BY`
defeats the single-space `\sGROUP BY` terminator), `GROUP BY` and `COUNT(`
text survives inside the extracted FROM clause — whitespace collapse then
even reconstructs a literal `GROUP BY` in the derived query. -/
theorem C3_counterexample :
    get_pre_aggregation_query "SELECT 1 GROUP BY x" = none ∧
    get_pre_aggregation_query
        "SELECT x FROM t GROUP\t BY COUNT(a) GROUP BY z"
      = some "SELECT * FROM t GROUP BY COUNT(a) LIMIT 100" ∧
    hasSubstr "GROUP BY".data
        "SELECT * FROM t GROUP BY COUNT(a) LIMIT 100".data = true ∧
    hasSubstr "COUNT(".data
        "SELECT * FROM t GROUP BY COUNT(a) LIMIT 100".data = true := by
  decide

/-- C3 (amended): for every SQL string on which `get_pre_aggregation_query`
returns a query, the string contains `GROUP BY` case-insensitively, the
regex FROM-clause extraction succeeded with some capture `c`, and the
returned query is exactly `SELECT * FROM <c'> LIMIT 100` where `c'` is `c`
stripped of outer whitespace with internal whitespace collapsed to single
spaces (degenerating to `SELECT * FROM LIMIT 100` when the capture is all
whitespace); no absence of `GROUP BY` or of aggregation functions in the
result is guaranteed. -/
theorem C3_amended_form (sql q : String)
    (h : get_pre_aggregation_query sql = some q) :
    hasSubstr "GROUP BY".data (upperL sql.data) = true ∧
    ∃ c, searchFrom sql.data = some c ∧
      ((stripWs c = [] ∧ q = "SELECT * FROM LIMIT 100") ∨
       (stripWs c ≠ [] ∧
         q.data = "SELECT * FROM ".data ++ collapseWs (stripWs c)
           ++ " LIMIT 100".data)) := by
  unfold get_pre_aggregation_query at h
  by_cases hgb : hasSubstr "GROUP BY".data (upperL sql.data) = true
  · refine ⟨hgb, ?_⟩
    rw [if_neg (by simp [hgb])] at h
    cases hsf : searchFrom sql.data with
    | none => rw [hsf] at h; simp at h
    | some c =>
      rw [hsf] at h
      simp only [Option.some.injEq] at h
      refine ⟨c, rfl, ?_⟩
      cases hm : stripWs c with
      | nil =>
        left
        refine ⟨rfl, ?_⟩
        rw [← h, hm]
        decide
      | cons a t =>
        right
        refine ⟨by simp [hm], ?_⟩
        have ha : wsChar a = false :=
          stripWs_head_not c a (by rw [hm]; rfl)
        have hlast : (stripWs c).getLast? =
            some ((stripWs c).getLast (by simp [hm])) :=
          List.getLast?_eq_getLast _ _
        have hb : wsChar ((stripWs c).getLast (by simp [hm])) = false :=
          stripWs_getLast_not c _ hlast
        have hsb : stripWs c
            = (stripWs c).dropLast ++ [(stripWs c).getLast (by simp [hm])] :=
          (List.dropLast_append_getLast _).symm
        rw [← h]
        simp only [String.data]
        rw [← hm]
        exact norm_wrap (stripWs c) a t hm ha (stripWs c).dropLast _ hsb hb
  · rw [if_pos (by simp [hgb])] at h
    simp at h

/-- Witness for C3 (amended) at a concrete aggregation query: the capture is
`t`, and the derived query is `SELECT * FROM t LIMIT 100`. -/
theorem C3_amended_form_witness :
    hasSubstr "GROUP BY".data
        (upperL "SELECT a FROM t GROUP BY a".data) = true ∧
    ∃ c, searchFrom "SELECT a FROM t GROUP BY a".data = some c ∧
      ((stripWs c = [] ∧
          ("SELECT * FROM t LIMIT 100" : String)
            = "SELECT * FROM LIMIT 100") ∨
       (stripWs c ≠ [] ∧
         ("SELECT * FROM t LIMIT 100" : String).data
           = "SELECT * FROM ".data ++ collapseWs (stripWs c)
             ++ " LIMIT 100".data)) :=
  C3_amended_form "SELECT a FROM t GROUP BY a" "SELECT * FROM t LIMIT 100"
    (by decide)

/-- C4: `analyze_sql` classifies a query as `AGGREGATION` exactly when an
aggregate function name or `GROUP BY` is present as a case-insensitive
substring; this takes priority over join detection, so `JOIN` is assigned
only when no aggregation indicator is present and at least one `JOIN`
occurs, and `SELECT` otherwise. -/
theorem C4_query_type_priority (sql : String) :
    ((analyze_sql sql).query_type = "AGGREGATION" ↔ aggIndicator sql) ∧
    ((analyze_sql sql).query_type = "JOIN" ↔
      (¬ aggIndicator sql ∧ 0 < (analyze_sql sql).join_count)) ∧
    ((analyze_sql sql).query_type = "SELECT" ↔
      (¬ aggIndicator sql ∧ (analyze_sql sql).join_count = 0)) := by
  have hiff : aggIndicator sql ↔
      ((aggKeywords.any fun a => hasSubstr a.data (upperL sql.data))
        || hasSubstr "GROUP BY".data (upperL sql.data)) = true := by
    simp [aggIndicator, List.any_eq_true]
  by_cases h1 : ((aggKeywords.any fun a => hasSubstr a.data (upperL sql.data))
      || hasSubstr "GROUP BY".data (upperL sql.data)) = true
  · simp [analyze_sql, h1, hiff]
  · by_cases h2 : 0 < countSub ['J', 'O', 'I', 'N'] (upperL sql.data)
    · simp [analyze_sql, h1, hiff, h2]
      omega
    · simp [analyze_sql, h1, hiff, h2]
      omega

/-- C10: `get_stats` on a pipeline with no queries reports an average
response time of zero (the division is guarded, no fault), and with at least
one query it reports total response time divided by the query count. -/
theorem C10_avg_response_time (p : RAGPipeline) :
    (p.stats.total_queries = 0 → p.get_stats.avg_response_time = 0) ∧
    (0 < p.stats.total_queries →
      p.get_stats.avg_response_time
        = p.stats.total_response_time / (p.stats.total_queries : ℚ)) := by
  constructor
  · intro h
    simp [RAGPipeline.get_stats, h]
  · intro h
    simp [RAGPipeline.get_stats, h]

/-- Witness for C10 at two concrete pipelines: a fresh pipeline reports
average zero, and a pipeline with three queries totalling six seconds
reports an average of two seconds. -/
theorem C10_avg_response_time_witness :
    pipe0.get_stats.avg_response_time = 0 ∧
    pipe3.get_stats.avg_response_time
      = pipe3.stats.total_response_time / (pipe3.stats.total_queries : ℚ) :=
  ⟨(C10_avg_response_time pipe0).1 rfl,
   (C10_avg_response_time pipe3).2 (by decide)⟩

end RagSpec
